import Mathlib

/-!
Verification of the Weekly Digest pipeline of the intentional-social
repository: the deterministic `filter_digest_posts` ranking algorithm
(`backend/app/routers/digest.py`), the week-bounds computation
(`ai_service/app/week_utils.py` and `backend/app/routers/digest.py`),
the LLM response handling of `generate_digest_summary`
(`ai_service/app/openai_client.py`), and the enrichment orchestration
strategies (`ai_service/app/post_processor.py`, `ai_service/app/main.py`).

Modelling conventions:
- Python naive datetimes are modelled as natural numbers counting
  microseconds since 0001-01-01 00:00:00 (Python `datetime.min`),
  which is exactly the resolution of Python `datetime` values.
- Importance scores (Python floats) are modelled as rationals; every
  score computation in the pipeline is a comparison or a clamp, which
  are exact in either number system for the values involved.
- External effects (database lookups, the HTTP response of the OpenAI
  API, batch job polling) are passed in as explicit inputs so that the
  orchestration code itself is a pure function of them.
-/

namespace DigestSpec

/-- Microseconds per second. -/
def usPerSecond : Nat := 1000000

/-- Microseconds per calendar day. -/
def usPerDay : Nat := 86400 * usPerSecond

/-- Day index of a naive timestamp, i.e. Python `.date()` seen as the count
of days since 0001-01-01 (a Monday in the proleptic Gregorian calendar). -/
def dayIndex (t : Nat) : Nat := t / usPerDay

/-- Python `datetime.weekday()`: Monday = 0, ..., Sunday = 6.  Day 0 of the
epoch (0001-01-01) is a Monday, so the weekday is the day index mod 7. -/
def pyWeekday (t : Nat) : Nat := dayIndex t % 7

/-- Python `date.replace(hour=0, minute=0, second=0, microsecond=0)`:
the midnight instant of the timestamp's calendar day. -/
def dateOnly (t : Nat) : Nat := dayIndex t * usPerDay

/-- Embeds `get_week_bounds` (identical date arithmetic in
`backend/app/routers/digest.py` lines 36-68 and
`ai_service/app/week_utils.py` lines 8-29; the two copies differ only in
how they normalise an incoming timezone-aware value to a naive one,
which is invisible once the input is a naive timestamp):

    date_only = date.replace(hour=0, minute=0, second=0, microsecond=0)
    days_since_sunday = (date_only.weekday() + 1) % 7
    week_start = date_only - timedelta(days=days_since_sunday)
    week_end = week_start + timedelta(days=6, hours=23, minutes=59, seconds=59)

For reference timestamps inside the first week of year 1 the Python
subtraction underflows `datetime.min` and raises `OverflowError`;
theorems therefore assume `6 * usPerDay ≤ t`, which keeps the
subtraction inside the defined domain. -/
def get_week_bounds (t : Nat) : Nat × Nat :=
  let date_only := dateOnly t
  let days_since_sunday := (pyWeekday t + 1) % 7
  let week_start := date_only - days_since_sunday * usPerDay
  let week_end := week_start + 6 * usPerDay + (23 * 60 * 60 + 59 * 60 + 59) * usPerSecond
  (week_start, week_end)

/-- The subset of the `Post` ORM row used by the digest pipeline
(`backend/app/models/post.py` / `ai_service/app/models.py`):
`created_at` is a non-nullable column, `digest_summary` and
`importance_score` are nullable and written only by enrichment. -/
structure Post where
  id : Nat
  author_id : Nat
  created_at : Nat
  digest_summary : Option String
  importance_score : Option ℚ
deriving DecidableEq

/-- The two settings read by `filter_digest_posts` (digest.py lines 94-95).
They are read off the pydantic `settings` object; the `Settings` class in
`backend/app/config.py` does not declare them, so their values are
deployment-provided and are modelled here as explicit inputs. -/
structure DigestSettings where
  DIGEST_MIN_IMPORTANCE_THRESHOLD : ℚ
  DIGEST_POSTS_PER_CONNECTION_PER_DAY : Int
deriving DecidableEq

/-- Modelled from the spec: the default values of
`DIGEST_MIN_IMPORTANCE_THRESHOLD` and
`DIGEST_POSTS_PER_CONNECTION_PER_DAY` are not declared in
`src/backend/app/config.py`.  The spec gives the defaults as "default 2"
posts per connection per day and a quality threshold "default low enough
to exclude only trivial/meme-tier content, e.g. 0-1 band"; we take
threshold 1 and cap 2. -/
def defaultDigestSettings : DigestSettings := ⟨1, 2⟩

/-- Rule D quality gate predicate (digest.py lines 101-104): keep a post
iff `importance_score is not None and importance_score > threshold`. -/
def passesQuality (thr : ℚ) (p : Post) : Bool :=
  match p.importance_score with
  | some s => decide (thr < s)
  | none => false

/-- `filtered_by_quality` (digest.py lines 101-104). -/
def filteredByQuality (thr : ℚ) (posts : List Post) : List Post :=
  posts.filter (passesQuality thr)

/-- `high_importance_threshold = 7.0` (digest.py line 109). -/
def highImportanceThreshold : ℚ := 7

/-- `low_priority_threshold = 4.0` (digest.py line 110). -/
def lowPriorityThreshold : ℚ := 4

/-- The `any(...)` body of `has_high_importance_events` (digest.py lines
112-115): `importance_score is not None and importance_score >= 7.0`. -/
def isHighImportance (p : Post) : Bool :=
  match p.importance_score with
  | some s => decide (highImportanceThreshold ≤ s)
  | none => false

/-- The clamp `max(1, min(2, posts_per_connection_per_day))` (digest.py
line 97), returned as a `Nat` so it can feed `List.take`. -/
def clampPpd (v : Int) : Nat := (max 1 (min 2 v)).toNat

/-- The numeric part of a sort key:
`p.importance_score if p.importance_score is not None else 0.0`. -/
def scoreKey (p : Post) : ℚ := p.importance_score.getD 0

/-- `post.created_at.date()` (digest.py line 124; `created_at` is a
non-nullable column, so the `date.today()` fallback for a missing value
is unreachable on database rows). -/
def postDate (p : Post) : Nat := dayIndex p.created_at

/-- The grouping key `(author_id, post_date)` (digest.py line 126). -/
def authorDateKey (p : Post) : Nat × Nat := (p.author_id, postDate p)

/-- Rule B in-group order (digest.py lines 133-139): Python
`sorted(key=lambda p: (-(score or 0.0), p.id))`; `a` may come no later
than `b` iff the key of `a` is at most the key of `b`.  Python's sort is
stable, and a stable sort for a given total preorder is unique, so the
stable `List.insertionSort` below computes exactly Python's result. -/
def daySortLE (a b : Post) : Prop :=
  scoreKey b < scoreKey a ∨ (scoreKey a = scoreKey b ∧ a.id ≤ b.id)

instance : DecidableRel daySortLE := fun a b => by unfold daySortLE; infer_instance

/-- First-occurrence deduplication: the iteration order of the Python
`defaultdict` built on digest.py lines 118-127 is the order in which
keys were first inserted. -/
def dedupFirst : List (Nat × Nat) → List (Nat × Nat)
  | [] => []
  | k :: ks => k :: (dedupFirst ks).filter (fun x => decide (x ≠ k))

/-- The posts entering the grouping loop (digest.py lines 119-127): the
quality survivors minus any with `importance_score is None` (that guard,
line 120, is redundant after the quality gate but is kept faithful). -/
def scoredPosts (fq : List Post) : List Post :=
  fq.filter (fun p => p.importance_score.isSome)

/-- Rule B per-day compression (digest.py lines 117-142): group the
quality survivors by `(author_id, date)`, sort each group by
`(-score, id)` with Python's stable sort, keep the first `ppd` of each
group, and concatenate the groups in key first-insertion order. -/
def compressByDay (ppd : Nat) (fq : List Post) : List Post :=
  let scored := scoredPosts fq
  (dedupFirst (scored.map authorDateKey)).flatMap
    (fun k =>
      (List.insertionSort daySortLE (scored.filter (fun p => decide (authorDateKey p = k)))).take
        ppd)

/-- Rule C keep-predicate (digest.py lines 146-149): keep a post iff
`importance_score is None or importance_score > 4.0`. -/
def keepUnderSuppression (p : Post) : Bool :=
  match p.importance_score with
  | none => true
  | some s => decide (lowPriorityThreshold < s)

/-- Rules D, B and C in sequence (digest.py lines 99-151): the list held
in `filtered_by_priority` just before the final sort. -/
def stageCOutput (thr : ℚ) (ppd : Nat) (posts : List Post) : List Post :=
  let filtered_by_quality := filteredByQuality thr posts
  let has_high_importance_events := filtered_by_quality.any isHighImportance
  let filtered_by_day := compressByDay ppd filtered_by_quality
  if has_high_importance_events then filtered_by_day.filter keepUnderSuppression
  else filtered_by_day

/-- Final sort order (digest.py lines 156-162): Python stable sort by
`(created_at, -(score or 0.0), id)`; `created_at` is non-nullable so the
`datetime.min` fallback is unreachable on database rows. -/
def finalSortLE (a b : Post) : Prop :=
  a.created_at < b.created_at ∨
    (a.created_at = b.created_at ∧
      (scoreKey b < scoreKey a ∨ (scoreKey a = scoreKey b ∧ a.id ≤ b.id)))

instance : DecidableRel finalSortLE := fun a b => by unfold finalSortLE; infer_instance

/-- `filter_digest_posts(posts, max_pages=12)` (digest.py lines 71-167):
the empty-input early return, the four rules, the final stable sort and
the weekly cap `[:max_pages]`. -/
def filter_digest_posts (s : DigestSettings) (posts : List Post) (max_pages : Nat) : List Post :=
  if posts.isEmpty then []
  else
    (List.insertionSort finalSortLE
        (stageCOutput s.DIGEST_MIN_IMPORTANCE_THRESHOLD
          (clampPpd s.DIGEST_POSTS_PER_CONNECTION_PER_DAY) posts)).take
      max_pages

/-! ### Basic facts about the sort relations and pipeline stages -/

theorem scoreKey_eq {p : Post} {s : ℚ} (h : p.importance_score = some s) : scoreKey p = s := by
  simp [scoreKey, h]

instance : IsTotal Post daySortLE := by
  constructor
  intro a b
  unfold daySortLE
  rcases lt_trichotomy (scoreKey a) (scoreKey b) with h | h | h
  · exact Or.inr (Or.inl h)
  · rcases Nat.le_total a.id b.id with hid | hid
    · exact Or.inl (Or.inr ⟨h, hid⟩)
    · exact Or.inr (Or.inr ⟨h.symm, hid⟩)
  · exact Or.inl (Or.inl h)

instance : IsTrans Post daySortLE := by
  constructor
  intro a b c hab hbc
  unfold daySortLE at hab hbc ⊢
  rcases hab with h1 | ⟨e1, i1⟩ <;> rcases hbc with h2 | ⟨e2, i2⟩
  · exact Or.inl (lt_trans h2 h1)
  · exact Or.inl (e2 ▸ h1)
  · exact Or.inl (by rw [e1]; exact h2)
  · exact Or.inr ⟨e1.trans e2, le_trans i1 i2⟩

instance : IsTotal Post finalSortLE := by
  constructor
  intro a b
  unfold finalSortLE
  rcases Nat.lt_trichotomy a.created_at b.created_at with h | h | h
  · exact Or.inl (Or.inl h)
  · rcases IsTotal.total (r := daySortLE) a b with hd | hd
    · exact Or.inl (Or.inr ⟨h, hd⟩)
    · exact Or.inr (Or.inr ⟨h.symm, hd⟩)
  · exact Or.inr (Or.inl h)

instance : IsTrans Post finalSortLE := by
  constructor
  intro a b c hab hbc
  unfold finalSortLE at hab hbc ⊢
  rcases hab with h1 | ⟨e1, d1⟩ <;> rcases hbc with h2 | ⟨e2, d2⟩
  · exact Or.inl (lt_trans h1 h2)
  · exact Or.inl (e2 ▸ h1)
  · exact Or.inl (by rw [e1]; exact h2)
  · exact Or.inr ⟨e1.trans e2, IsTrans.trans (r := daySortLE) a b c d1 d2⟩

theorem passesQuality_iff {thr : ℚ} {p : Post} :
    passesQuality thr p = true ↔ ∃ s, p.importance_score = some s ∧ thr < s := by
  unfold passesQuality
  cases h : p.importance_score with
  | none => simp [h]
  | some s => simp [h]

theorem mem_filteredByQuality {thr : ℚ} {posts : List Post} {p : Post} :
    p ∈ filteredByQuality thr posts ↔
      p ∈ posts ∧ ∃ s, p.importance_score = some s ∧ thr < s := by
  unfold filteredByQuality
  rw [List.mem_filter, passesQuality_iff]

theorem isHighImportance_iff {p : Post} :
    isHighImportance p = true ↔
      ∃ s, p.importance_score = some s ∧ highImportanceThreshold ≤ s := by
  unfold isHighImportance
  cases h : p.importance_score with
  | none => simp [h]
  | some s => simp [h]

theorem clampPpd_bounds (v : Int) : 1 ≤ clampPpd v ∧ clampPpd v ≤ 2 := by
  unfold clampPpd
  omega

theorem mem_dedupFirst {l : List (Nat × Nat)} {a : Nat × Nat} :
    a ∈ dedupFirst l ↔ a ∈ l := by
  induction l with
  | nil => simp [dedupFirst]
  | cons k ks ih =>
    simp only [dedupFirst, List.mem_cons, List.mem_filter, ih, decide_eq_true_eq]
    by_cases h : a = k <;> simp [h]

theorem nodup_dedupFirst (l : List (Nat × Nat)) : (dedupFirst l).Nodup := by
  induction l with
  | nil => simp [dedupFirst]
  | cons k ks ih =>
    simp only [dedupFirst]
    rw [List.nodup_cons]
    refine ⟨?_, ih.filter _⟩
    simp [List.mem_filter]

theorem mem_scoredPosts {fq : List Post} {p : Post} :
    p ∈ scoredPosts fq ↔ p ∈ fq ∧ p.importance_score.isSome = true := by
  unfold scoredPosts
  rw [List.mem_filter]

theorem mem_compressByDay {ppd : Nat} {fq : List Post} {p : Post}
    (h : p ∈ compressByDay ppd fq) : p ∈ fq ∧ p.importance_score.isSome = true := by
  simp only [compressByDay, List.mem_flatMap] at h
  obtain ⟨k, _, hp⟩ := h
  have h1 := List.mem_of_mem_take hp
  rw [List.mem_insertionSort, List.mem_filter] at h1
  exact mem_scoredPosts.1 h1.1

theorem key_of_mem_block {scored : List Post} {k : Nat × Nat} {ppd : Nat} {p : Post}
    (h : p ∈ (List.insertionSort daySortLE
        (scored.filter (fun q => decide (authorDateKey q = k)))).take ppd) :
    authorDateKey p = k := by
  have h1 := List.mem_of_mem_take h
  rw [List.mem_insertionSort, List.mem_filter] at h1
  exact of_decide_eq_true h1.2

theorem key_of_mem_flatMap {keys : List (Nat × Nat)} {f : Nat × Nat → List Post}
    (hkey : ∀ k, ∀ p ∈ f k, authorDateKey p = k) {p : Post}
    (h : p ∈ keys.flatMap f) : authorDateKey p ∈ keys := by
  rw [List.mem_flatMap] at h
  obtain ⟨k, hk, hp⟩ := h
  rw [hkey k p hp]
  exact hk

theorem filter_key_flatMap_length_le {f : Nat × Nat → List Post} {n : Nat}
    (hkey : ∀ k, ∀ p ∈ f k, authorDateKey p = k) (hlen : ∀ k, (f k).length ≤ n) :
    ∀ keys : List (Nat × Nat), keys.Nodup → ∀ k,
      ((keys.flatMap f).filter (fun p => decide (authorDateKey p = k))).length ≤ n := by
  intro keys
  induction keys with
  | nil => intro _ k; simp
  | cons k0 ks ih =>
    intro hnd k
    rw [List.nodup_cons] at hnd
    rw [List.flatMap_cons, List.filter_append, List.length_append]
    by_cases hk : k = k0
    · subst hk
      have h2 : (ks.flatMap f).filter (fun p => decide (authorDateKey p = k)) = [] := by
        rw [List.filter_eq_nil_iff]
        intro p hp
        have hkp := key_of_mem_flatMap hkey hp
        simp only [decide_eq_true_eq]
        intro he
        rw [he] at hkp
        exact hnd.1 hkp
      rw [h2]
      simp only [List.length_nil, Nat.add_zero]
      exact le_trans (List.length_filter_le _ _) (hlen k)
    · have h1 : (f k0).filter (fun p => decide (authorDateKey p = k)) = [] := by
        rw [List.filter_eq_nil_iff]
        intro p hp
        have hkp := hkey k0 p hp
        simp only [decide_eq_true_eq, hkp]
        exact fun e => hk e.symm
      rw [h1]
      simpa using ih hnd.2 k

theorem compress_count_le (ppd : Nat) (fq : List Post) (k : Nat × Nat) :
    ((compressByDay ppd fq).filter (fun p => decide (authorDateKey p = k))).length ≤ ppd := by
  unfold compressByDay
  exact filter_key_flatMap_length_le (fun _ _ hp => key_of_mem_block hp)
    (fun _ => List.length_take_le _ _) _ (nodup_dedupFirst _) k

theorem anyHigh_compressByDay {ppd : Nat} (hppd : 1 ≤ ppd) (fq : List Post) :
    (compressByDay ppd fq).any isHighImportance = fq.any isHighImportance := by
  rw [Bool.eq_iff_iff, List.any_eq_true, List.any_eq_true]
  constructor
  · rintro ⟨p, hp, hhigh⟩
    exact ⟨p, (mem_compressByDay hp).1, hhigh⟩
  · rintro ⟨p, hp, hhigh⟩
    obtain ⟨s, hs, h7⟩ := isHighImportance_iff.1 hhigh
    have hscored : p ∈ scoredPosts fq := mem_scoredPosts.2 ⟨hp, by simp [hs]⟩
    have hpg : p ∈ (scoredPosts fq).filter
        (fun q => decide (authorDateKey q = authorDateKey p)) := by
      rw [List.mem_filter]
      exact ⟨hscored, by simp⟩
    have hps : p ∈ List.insertionSort daySortLE ((scoredPosts fq).filter
        (fun q => decide (authorDateKey q = authorDateKey p))) := by
      rw [List.mem_insertionSort]
      exact hpg
    cases hcase : List.insertionSort daySortLE ((scoredPosts fq).filter
        (fun q => decide (authorDateKey q = authorDateKey p))) with
    | nil => rw [hcase] at hps; simp at hps
    | cons a tl =>
      have hsorted := List.sorted_insertionSort daySortLE ((scoredPosts fq).filter
        (fun q => decide (authorDateKey q = authorDateKey p)))
      rw [hcase, List.sorted_cons] at hsorted
      have hle : scoreKey p ≤ scoreKey a := by
        rw [hcase] at hps
        rcases List.mem_cons.1 hps with heq | htl
        · rw [heq]
        · rcases hsorted.1 p htl with hlt | ⟨heq, _⟩
          · exact le_of_lt hlt
          · exact le_of_eq heq.symm
      have haG : a ∈ (scoredPosts fq).filter
          (fun q => decide (authorDateKey q = authorDateKey p)) := by
        rw [← List.mem_insertionSort (r := daySortLE), hcase]
        exact List.mem_cons_self a tl
      have haS := (List.mem_filter.1 haG).1
      obtain ⟨sa, hsa⟩ := Option.isSome_iff_exists.1 (mem_scoredPosts.1 haS).2
      have h7a : highImportanceThreshold ≤ sa := by
        have e1 := scoreKey_eq hs
        have e2 := scoreKey_eq hsa
        rw [← e2]
        exact le_trans h7 (e1 ▸ hle)
      refine ⟨a, ?_, isHighImportance_iff.2 ⟨sa, hsa, h7a⟩⟩
      simp only [compressByDay, List.mem_flatMap]
      refine ⟨authorDateKey p, ?_, ?_⟩
      · rw [mem_dedupFirst]
        exact List.mem_map.2 ⟨p, hscored, rfl⟩
      · rw [hcase, List.take_cons hppd]
        exact List.mem_cons_self a _

theorem mem_stageC_sub {thr : ℚ} {ppd : Nat} {posts : List Post} {p : Post}
    (h : p ∈ stageCOutput thr ppd posts) :
    p ∈ compressByDay ppd (filteredByQuality thr posts) := by
  simp only [stageCOutput] at h
  split at h
  · exact (List.mem_filter.1 h).1
  · exact h

theorem mem_filter_digest_posts {s : DigestSettings} {posts : List Post} {m : Nat} {p : Post}
    (h : p ∈ filter_digest_posts s posts m) :
    p ∈ filteredByQuality s.DIGEST_MIN_IMPORTANCE_THRESHOLD posts := by
  unfold filter_digest_posts at h
  split at h
  · simp at h
  · have h1 := List.mem_of_mem_take h
    rw [List.mem_insertionSort] at h1
    exact (mem_compressByDay (mem_stageC_sub h1)).1

/-! ### Concrete posts used by the claims' worked examples -/

/-- The day index 730 (an arbitrary Wednesday, `730 % 7 = 2`) in microseconds. -/
def exampleDay : Nat := 730 * usPerDay

/-- The five posts of the per-day compression example: one author (id 7),
one calendar date, importance scores 9, 8, 7, 6, 5, distinct post ids. -/
def c1post9 : Post := ⟨1, 7, exampleDay + 1 * 3600 * usPerSecond, none, some 9⟩

def c1post8 : Post := ⟨2, 7, exampleDay + 2 * 3600 * usPerSecond, none, some 8⟩

def c1base : List Post :=
  [c1post9, c1post8,
   ⟨3, 7, exampleDay + 3 * 3600 * usPerSecond, none, some 7⟩,
   ⟨4, 7, exampleDay + 4 * 3600 * usPerSecond, none, some 6⟩,
   ⟨5, 7, exampleDay + 5 * 3600 * usPerSecond, none, some 5⟩]

set_option maxHeartbeats 4000000 in
set_option maxRecDepth 10000 in
theorem c1_perm_table : ∀ l ∈ c1base.permutations',
    compressByDay 2 (filteredByQuality 1 l) = [c1post9, c1post8] := by
  decide

/-- C1: per-day compression.  (1) The configured per-author-per-day cap is
clamped into the inclusive range [1, 2]; (2) for every input and every
`(author_id, calendar_date)` key, at most the clamped cap many posts of
that key survive the per-day stage; (3) the per-day stage only keeps
posts that survived the quality gate; (4) for the 5 posts of one author
on one calendar date with scores [9, 8, 7, 6, 5] under the default
configuration, exactly the posts scored 9 and 8 survive the stage,
whatever the input order. -/
theorem C1_per_day_compression :
    (∀ v : Int, 1 ≤ clampPpd v ∧ clampPpd v ≤ 2) ∧
    (∀ (thr : ℚ) (v : Int) (posts : List Post) (k : Nat × Nat),
        ((compressByDay (clampPpd v) (filteredByQuality thr posts)).filter
            (fun p => decide (authorDateKey p = k))).length ≤ clampPpd v) ∧
    (∀ (thr : ℚ) (ppd : Nat) (posts : List Post) (p : Post),
        p ∈ compressByDay ppd (filteredByQuality thr posts) →
          p ∈ filteredByQuality thr posts) ∧
    (∀ l : List Post, l.Perm c1base →
        compressByDay (clampPpd defaultDigestSettings.DIGEST_POSTS_PER_CONNECTION_PER_DAY)
            (filteredByQuality defaultDigestSettings.DIGEST_MIN_IMPORTANCE_THRESHOLD l) =
          [c1post9, c1post8]) := by
  refine ⟨clampPpd_bounds, fun thr v posts k => compress_count_le _ _ k,
    fun thr ppd posts p h => (mem_compressByDay h).1, fun l h => ?_⟩
  have hmem : l ∈ c1base.permutations' := List.mem_permutations'.2 h
  have he : clampPpd defaultDigestSettings.DIGEST_POSTS_PER_CONNECTION_PER_DAY = 2 := by decide
  rw [he]
  exact c1_perm_table l hmem

/-- Witness for C1: the theorem applied to a concrete reordering (the
reversed example list, scores [5, 6, 7, 8, 9]). -/
theorem C1_per_day_compression_witness :
    compressByDay (clampPpd defaultDigestSettings.DIGEST_POSTS_PER_CONNECTION_PER_DAY)
        (filteredByQuality defaultDigestSettings.DIGEST_MIN_IMPORTANCE_THRESHOLD
          c1base.reverse) = [c1post9, c1post8] :=
  C1_per_day_compression.2.2.2 c1base.reverse (by decide)

/-- The suppression example posts: three authors, one week; scores 8, 3, 3. -/
def c2post8 : Post := ⟨10, 1, exampleDay + 1 * 3600 * usPerSecond, none, some 8⟩

def c2post3a : Post := ⟨11, 2, exampleDay + 2 * 3600 * usPerSecond, none, some 3⟩

def c2post3b : Post := ⟨12, 3, exampleDay + 3 * 3600 * usPerSecond, none, some 3⟩

/-- C2: priority suppression.  (1) For every configuration and input, the
stage after per-day compression equals: if some post remaining after
per-day compression has importance at least 7, keep exactly the
remaining posts with importance above 4 (dropping every one at or below
4), else keep everything (the code computes the trigger over the
quality-gate survivors, which provably coincides with computing it over
the per-day survivors, and its keep-predicate coincides with
`score > 4` on them); (2) a week [8, 3, 3] keeps only the 8;
(3) a week [3, 3] keeps both. -/
theorem C2_priority_suppression :
    (∀ (thr : ℚ) (v : Int) (posts : List Post),
        stageCOutput thr (clampPpd v) posts =
          if (compressByDay (clampPpd v) (filteredByQuality thr posts)).any isHighImportance
          then (compressByDay (clampPpd v) (filteredByQuality thr posts)).filter
                 (fun p => decide (lowPriorityThreshold < scoreKey p))
          else compressByDay (clampPpd v) (filteredByQuality thr posts)) ∧
    filter_digest_posts defaultDigestSettings [c2post8, c2post3a, c2post3b] 12 = [c2post8] ∧
    filter_digest_posts defaultDigestSettings [c2post3a, c2post3b] 12 =
      [c2post3a, c2post3b] := by
  refine ⟨fun thr v posts => ?_, by decide, by decide⟩
  simp only [stageCOutput]
  rw [← anyHigh_compressByDay (clampPpd_bounds v).1 (filteredByQuality thr posts)]
  split
  · apply List.filter_congr
    intro p hp
    obtain ⟨s, hs⟩ := Option.isSome_iff_exists.1 (mem_compressByDay hp).2
    simp [keepUnderSuppression, hs, scoreKey_eq hs]
  · rfl

/-- C3: weekly cap and output order.  (1) The returned list is always in
ascending `created_at` order; (2) its length never exceeds `max_posts`;
(3) on nonempty input it is precisely the stable
`(created_at, -importance, id)` sort of the suppression stage's
survivors truncated to `max_posts`; being a pure function of its input
it is deterministic across repeated calls. -/
theorem C3_weekly_cap :
    (∀ (s : DigestSettings) (posts : List Post) (m : Nat),
        List.Pairwise (fun a b : Post => a.created_at ≤ b.created_at)
          (filter_digest_posts s posts m)) ∧
    (∀ (s : DigestSettings) (posts : List Post) (m : Nat),
        (filter_digest_posts s posts m).length ≤ m) ∧
    (∀ (s : DigestSettings) (posts : List Post) (m : Nat), posts ≠ [] →
        filter_digest_posts s posts m =
          (List.insertionSort finalSortLE
            (stageCOutput s.DIGEST_MIN_IMPORTANCE_THRESHOLD
              (clampPpd s.DIGEST_POSTS_PER_CONNECTION_PER_DAY) posts)).take m) := by
  refine ⟨fun s posts m => ?_, fun s posts m => ?_, fun s posts m h => ?_⟩
  · unfold filter_digest_posts
    split
    · exact List.Pairwise.nil
    · refine List.Pairwise.sublist (List.take_sublist _ _) ?_
      refine (List.sorted_insertionSort finalSortLE _).imp ?_
      intro a b hab
      rcases hab with h1 | ⟨h1, _⟩
      · exact le_of_lt h1
      · exact le_of_eq h1
  · unfold filter_digest_posts
    split
    · simp
    · exact List.length_take_le _ _
  · unfold filter_digest_posts
    rw [if_neg (by simpa using h)]

/-- Witness for C3: the nonempty-input conjunct applied to the week
[8, 3, 3] example. -/
theorem C3_weekly_cap_witness :
    filter_digest_posts defaultDigestSettings [c2post8, c2post3a, c2post3b] 12 =
      (List.insertionSort finalSortLE
        (stageCOutput defaultDigestSettings.DIGEST_MIN_IMPORTANCE_THRESHOLD
          (clampPpd defaultDigestSettings.DIGEST_POSTS_PER_CONNECTION_PER_DAY)
          [c2post8, c2post3a, c2post3b])).take 12 :=
  C3_weekly_cap.2.2 defaultDigestSettings [c2post8, c2post3a, c2post3b] 12 (by decide)

/-- C4: quality-gate output invariant.  Every post returned by
`filter_digest_posts` has a non-null importance score strictly greater
than the configured minimum threshold, and the empty input yields the
empty output. -/
theorem C4_quality_gate_invariant :
    (∀ (s : DigestSettings) (posts : List Post) (m : Nat) (p : Post),
        p ∈ filter_digest_posts s posts m →
          ∃ q, p.importance_score = some q ∧ s.DIGEST_MIN_IMPORTANCE_THRESHOLD < q) ∧
    (∀ (s : DigestSettings) (m : Nat), filter_digest_posts s [] m = []) := by
  constructor
  · intro s posts m p h
    exact (mem_filteredByQuality.1 (mem_filter_digest_posts h)).2
  · intro s m
    unfold filter_digest_posts
    simp

/-- Witness for C4: the invariant instantiated on the [8, 3, 3] example,
whose output is the single post scored 8. -/
theorem C4_quality_gate_invariant_witness :
    ∃ q, c2post8.importance_score = some q ∧
      defaultDigestSettings.DIGEST_MIN_IMPORTANCE_THRESHOLD < q :=
  C4_quality_gate_invariant.1 defaultDigestSettings [c2post8, c2post3a, c2post3b] 12 c2post8
    (by decide)

/-! ### Week bounds (claim C9) -/

/-- A concrete reference timestamp: noon of day 730 (a Wednesday, since
`730 % 7 = 2`). -/
def c9refTime : Nat := 730 * usPerDay + 12 * 3600 * usPerSecond

/-- The instant `Saturday 23:59:59.999` of the week containing the
reference timestamp: `week_start + 6 days + 23:59:59 + 999 ms`. -/
def c9saturdayLate : Nat :=
  (get_week_bounds c9refTime).1 + 6 * usPerDay + 86399 * usPerSecond + 999 * 1000

/-- Counterexample for C9 as stated: the claim has the returned window
run "through Saturday 23:59:59.999 inclusive", but the code computes
`week_end = week_start + timedelta(days=6, hours=23, minutes=59,
seconds=59)`, whose sub-second part is zero.  At the concrete reference
timestamp, the instant Saturday 23:59:59.999 of that week (which falls
on the week's Saturday) is strictly after the returned `week_end`, so it
does not lie within `[week_start, week_end]`. -/
theorem C9_week_bounds_counterexample :
    pyWeekday c9saturdayLate = 5 ∧
    (get_week_bounds c9refTime).1 ≤ c9saturdayLate ∧
    ¬ (c9saturdayLate ≤ (get_week_bounds c9refTime).2) := by
  refine ⟨by decide, by decide, by decide⟩

/-- C9 (amended): `get_week_bounds` returns the window of the
Sunday-through-Saturday week containing the reference timestamp, running
Sunday 00:00:00 through Saturday 23:59:59 (with zero sub-second part)
inclusive: the start is the midnight of a Sunday, at most the reference
timestamp, and less than seven days before it; the end is exactly
`week_start + 6 days + 23:59:59`; hence a post created at Saturday
23:59:59 lies within `[week_start, week_end]`, and a post created one
second later (Sunday 00:00:00) is outside it and belongs to the next
week, whose `week_start` is that Sunday at 00:00:00.  (The hypothesis
keeps the computation away from the `datetime.min` underflow, where
Python raises `OverflowError`.) -/
theorem C9_week_bounds :
    ∀ t : Nat, 6 * usPerDay ≤ t →
      (get_week_bounds t).1 = dateOnly (get_week_bounds t).1 ∧
      pyWeekday (get_week_bounds t).1 = 6 ∧
      (get_week_bounds t).1 ≤ t ∧
      t < (get_week_bounds t).1 + 7 * usPerDay ∧
      (get_week_bounds t).2 = (get_week_bounds t).1 + 6 * usPerDay + 86399 * usPerSecond ∧
      (get_week_bounds t).1 + 6 * usPerDay + 86399 * usPerSecond ≤ (get_week_bounds t).2 ∧
      ¬ ((get_week_bounds t).1 + 6 * usPerDay + 86399 * usPerSecond + 1 * usPerSecond
          ≤ (get_week_bounds t).2) ∧
      (get_week_bounds ((get_week_bounds t).1 + 6 * usPerDay + 86399 * usPerSecond
          + 1 * usPerSecond)).1 =
        (get_week_bounds t).1 + 7 * usPerDay := by
  intro t ht
  simp only [usPerDay, usPerSecond] at ht
  refine ⟨?_, ?_, ?_, ?_, ?_, ?_, ?_, ?_⟩ <;>
    (simp only [get_week_bounds, dateOnly, pyWeekday, dayIndex, usPerDay, usPerSecond]
     try omega)

/-- Witness for C9: the amended theorem applied at the concrete Wednesday
reference timestamp. -/
theorem C9_week_bounds_witness :
    6 * usPerDay ≤ c9refTime ∧
    pyWeekday (get_week_bounds c9refTime).1 = 6 ∧
    (get_week_bounds ((get_week_bounds c9refTime).1 + 6 * usPerDay + 86399 * usPerSecond
        + 1 * usPerSecond)).1 =
      (get_week_bounds c9refTime).1 + 7 * usPerDay :=
  ⟨by decide, (C9_week_bounds c9refTime (by decide)).2.1,
    (C9_week_bounds c9refTime (by decide)).2.2.2.2.2.2.2⟩

/-! ### LLM client response handling (`ai_service/app/openai_client.py`) -/

/-- A JSON value as far as the client's validation observes it.  A JSON
string carries, alongside its characters, the outcome of Python
`float()` applied to it (a library primitive, supplied with the value);
`float()` raises on `None` and on containers, and maps booleans to 0/1. -/
inductive Json where
  | jstr (s : String) (toFloat : Option ℚ)
  | jnum (q : ℚ)
  | jbool (b : Bool)
  | jnull
  | jcontainer
deriving DecidableEq

/-- Python `float(x)` on a parsed JSON value. -/
def pyFloat : Json → Option ℚ
  | .jstr _ f => f
  | .jnum q => some q
  | .jbool b => some (if b then 1 else 0)
  | .jnull => none
  | .jcontainer => none

/-- Python dict field access: the last binding of the key wins (as with
`json.loads` on duplicate keys); `none` models `key not in result`. -/
def objGet (obj : List (String × Json)) (key : String) : Option Json :=
  ((obj.filter (fun kv => decide (kv.1 = key))).getLast?).map (fun kv => kv.2)

/-- Outcome of the JSON-parsing block (openai_client.py lines 275-290):
direct `json.loads`, else regex extraction of an embedded
`{...summary...importance...}` object followed by `json.loads` on the
match, else failure. -/
inductive ParseOutcome where
  | parsed (obj : List (String × Json))
  | extracted (obj : List (String × Json))
  | extractFailed
  | noJson
deriving DecidableEq

/-- The `message.content` of the first choice: `None`, a non-string
value, or an actual string together with how the parsing block treats
it. -/
inductive ResponseContent where
  | nullContent
  | nonStringContent
  | textContent (text : String) (parse : ParseOutcome)
deriving DecidableEq

/-- The observable outcome of the `chat.completions.create` call
(openai_client.py lines 210-251): a transport/API exception, a malformed
envelope (no choices / no message / no content attribute), or a response
carrying content. -/
inductive LLMCallResult where
  | apiError (msg : String)
  | noChoices
  | noMessage
  | noContent
  | response (content : ResponseContent)
deriving DecidableEq

/-- Python `len(s.strip()) == 0`: true iff every character of `s` is
whitespace (in particular for the empty string).  The code only ever
consumes `strip()` through this emptiness test. -/
def stripIsEmpty (s : String) : Bool := s.data.all (fun c => c.isWhitespace)

/-- `importance = max(0.0, min(10.0, importance))` (openai_client.py
line 302). -/
def clampImportance (q : ℚ) : ℚ := max 0 (min 10 q)

/-- `generate_digest_summary` (openai_client.py lines 71-314), as a
function of the call's observable outcome: every failure branch raises
(modelled as `.error`); on the success path the parsed `summary` field
is returned as-is (no validation of its type or emptiness happens here)
together with the clamped float of the `importance` field. -/
def generate_digest_summary : LLMCallResult → Except String (Json × ℚ)
  | .apiError msg => .error ("OpenAI API error: " ++ msg)
  | .noChoices => .error "OpenAI API returned invalid response: no choices"
  | .noMessage => .error "OpenAI API returned invalid response: no message"
  | .noContent => .error "OpenAI API returned invalid response: no content"
  | .response .nullContent => .error "OpenAI API returned None for response content"
  | .response .nonStringContent => .error "OpenAI API returned invalid content type"
  | .response (.textContent text parse) =>
    if stripIsEmpty text then .error "OpenAI API returned empty response content"
    else
      match parse with
      | .extractFailed => .error "Failed to parse JSON response from OpenAI"
      | .noJson => .error "No valid JSON found in OpenAI response"
      | .parsed obj | .extracted obj =>
        match objGet obj "summary" with
        | none => .error "Missing summary field in OpenAI response"
        | some summary =>
          match objGet obj "importance" with
          | none => .error "Missing importance field in OpenAI response"
          | some imp =>
            match pyFloat imp with
            | none => .error "float() failed on importance"
            | some q => .ok (summary, clampImportance q)

/-- The failure classes of the claim, minus the bad-summary-field class
the code does not enforce: transport error, malformed envelope,
null/non-string/blank envelope content, unparseable JSON with no
extractable object, missing `summary` or `importance` field, importance
on which `float()` raises. -/
def failureResponse : LLMCallResult → Bool
  | .apiError _ => true
  | .noChoices => true
  | .noMessage => true
  | .noContent => true
  | .response .nullContent => true
  | .response .nonStringContent => true
  | .response (.textContent text parse) =>
    if stripIsEmpty text then true
    else
      match parse with
      | .extractFailed => true
      | .noJson => true
      | .parsed obj | .extracted obj =>
        match objGet obj "summary" with
        | none => true
        | some _ =>
          match objGet obj "importance" with
          | none => true
          | some imp => (pyFloat imp).isNone

theorem clampImportance_bounds (q : ℚ) :
    0 ≤ clampImportance q ∧ clampImportance q ≤ 10 := by
  unfold clampImportance
  constructor
  · exact le_max_left 0 _
  · exact max_le (by norm_num) (min_le_left 10 q)

/-- A response whose envelope is well formed and whose JSON parses, but
whose `summary` field is the empty string: the text is
`{"summary": "", "importance": 5}` and `json.loads` yields the
corresponding object (the empty string is not floatable). -/
def c7emptySummaryResponse : LLMCallResult :=
  .response (.textContent "\x7b\"summary\": \"\", \"importance\": 5\x7d"
    (.parsed [("summary", .jstr "" none), ("importance", .jnum 5)]))

/-! ### Enrichment orchestration (`ai_service/app/post_processor.py`) -/

/-- Orchestrator-side validation of the returned summary
(post_processor.py lines 113-114 / 296-297 / 367-368):
`not summary or not isinstance(summary, str) or len(summary.strip()) == 0`
raises; otherwise the string is the value written.  All non-string JSON
values fail `isinstance`, the empty string is falsy, and a
whitespace-only string fails the strip test. -/
def validSummary : Json → Option String
  | .jstr s _ => if stripIsEmpty s then none else some s
  | _ => none

/-- Outcome of `prepare_post_data` (post_processor.py lines 26-65):
`None` when the author row is missing, else the prepared record (whose
contents do not influence the update decision). -/
inductive PrepOutcome where
  | prepOk
  | prepFailed
deriving DecidableEq

/-- The per-run observable state of `process_single_post` /
`process_post_async`: the post row after the run, whether the run
reported success, and how many LLM calls it made. -/
structure SingleRunResult where
  record : Option Post
  success : Bool
  llm_calls : Nat
deriving DecidableEq

/-- The successful write `post.digest_summary = summary;
post.importance_score = importance; db.commit()`. -/
def setEnriched (p : Post) (s : String) (q : ℚ) : Post :=
  ⟨p.id, p.author_id, p.created_at, some s, some q⟩

/-- `process_single_post` (post_processor.py lines 68-140) as a function
of the database row, the preparation outcome and the LLM call outcome:
missing post fails; a post with a non-null `digest_summary` is skipped
as success with no LLM call; a preparation failure fails without an LLM
call; then one `generate_digest_summary` call is made and the post is
written only if it returns and both validations pass — every failing
branch rolls back and refreshes, leaving the row unchanged. -/
def process_single_post (dbPost : Option Post) (prep : PrepOutcome)
    (resp : LLMCallResult) : SingleRunResult :=
  match dbPost with
  | none => ⟨none, false, 0⟩
  | some post =>
    if post.digest_summary.isSome then ⟨some post, true, 0⟩
    else
      match prep with
      | .prepFailed => ⟨some post, false, 0⟩
      | .prepOk =>
        match generate_digest_summary resp with
        | .error _ => ⟨some post, false, 1⟩
        | .ok (summary, importance) =>
          match validSummary summary with
          | none => ⟨some post, false, 1⟩
          | some s =>
            if importance < 0 ∨ 10 < importance then ⟨some post, false, 1⟩
            else ⟨some (setEnriched post s importance), true, 1⟩

/-- `process_post_async` (post_processor.py lines 326-392), the per-post
worker of the bounded-concurrency strategy: identical decision structure
to `process_single_post` except that preparation already happened. -/
def process_post_async (dbPost : Option Post) (resp : LLMCallResult) : SingleRunResult :=
  match dbPost with
  | none => ⟨none, false, 0⟩
  | some post =>
    if post.digest_summary.isSome then ⟨some post, true, 0⟩
    else
      match generate_digest_summary resp with
      | .error _ => ⟨some post, false, 1⟩
      | .ok (summary, importance) =>
        match validSummary summary with
        | none => ⟨some post, false, 1⟩
        | some s =>
          if importance < 0 ∨ 10 < importance then ⟨some post, false, 1⟩
          else ⟨some (setEnriched post s importance), true, 1⟩

/-- The pending-post condition of the weekly orchestration queries
(`ai_service/app/main.py` lines 59-71, 138-150, 201-210):
`created_at >= week_start AND created_at <= week_end AND
digest_summary IS NULL` — `importance_score` is never consulted. -/
def pendingFilter (week_start week_end : Nat) (p : Post) : Bool :=
  decide (week_start ≤ p.created_at) && decide (p.created_at ≤ week_end) &&
    decide (p.digest_summary = none)

/-- The polled batch status values (openai_client.py line 521). -/
inductive BatchStatus where
  | validating
  | in_progress
  | finalizing
  | completed
  | failed
  | expired
  | cancelling
  | cancelled
  | unknown
deriving DecidableEq

/-- `wait_for_batch_completion` (post_processor.py lines 143-187).  The
loop checks the elapsed wall-clock time against `max_wait_time` before
each poll, then polls: `completed` succeeds; `failed`/`expired`/
`cancelled` fail; any other status — and any exception while polling,
modelled as `none` — sleeps `poll_interval` and retries.  `fuel` is the
number of polls the time budget allows (`max_wait_time` 3600 s at
`poll_interval` 10 s allows 361 polls); `statuses` is the stream of
observed poll outcomes, and an exhausted stream means the remaining
polls keep erroring until the budget runs out. -/
def wait_for_batch_completion : Nat → List (Option BatchStatus) → Bool
  | 0, _ => false
  | _ + 1, [] => false
  | fuel + 1, s :: rest =>
    match s with
    | none => wait_for_batch_completion fuel rest
    | some .completed => true
    | some .failed => false
    | some .expired => false
    | some .cancelled => false
    | some _ => wait_for_batch_completion fuel rest

/-- One record of the fetched batch results (post_processor.py lines
268-278): its tracking id (`custom_id`, `none` when missing or not an
integer) and the outcome of `parse_batch_result` on it. -/
structure BatchResultRecord where
  custom_id : Option Nat
  parsed : Except String (Json × ℚ)

/-- One entry of `posts_data` together with whether
`prepare_batch_request` succeeded for it (post_processor.py lines
217-235). -/
structure BatchItem where
  record : Post
  prep_ok : Bool
deriving DecidableEq

/-- `results_map[post_id]` (post_processor.py lines 269-278): the map is
built by dict assignment over the result list, so the last record whose
`custom_id` parses to this post id wins. -/
def lookupResult (results : List BatchResultRecord) (pid : Nat) : Option BatchResultRecord :=
  (results.filter (fun r => decide (r.custom_id = some pid))).getLast?

/-- The per-post body of the result loop (post_processor.py lines
281-316): no matching result fails the post unchanged; a
`parse_batch_result` exception fails it unchanged; the two validations
fail it unchanged (with rollback and refresh); otherwise both fields are
written and committed. -/
def apply_batch_result (post : Post) (res : Option BatchResultRecord) : Post × Bool :=
  match res with
  | none => (post, false)
  | some r =>
    match r.parsed with
    | .error _ => (post, false)
    | .ok (summary, importance) =>
      match validSummary summary with
      | none => (post, false)
      | some s =>
        if importance < 0 ∨ 10 < importance then (post, false)
        else (setEnriched post s importance, true)

/-- The aggregate counters of a batch run. -/
structure BatchStats where
  processed : Nat
  failed : Nat
  skipped : Nat
deriving DecidableEq

/-- `process_post_batch` (post_processor.py lines 190-323) as a function
of the prepared items and the external outcomes: empty input returns
zero counters; items whose preparation failed are counted skipped; a
submission failure, a non-successful wait, or a retrieval failure sets
`failed` to the total item count and writes nothing; otherwise each item
is matched against the results by tracking id and processed
independently (the source's per-post loop commits or rolls back each
post on its own, so it is a map over the items). -/
def process_post_batch (items : List BatchItem) (submit : Except String String)
    (waitOk : Bool) (retrieve : Except String (List BatchResultRecord)) :
    List Post × BatchStats :=
  if items.isEmpty then ([], ⟨0, 0, 0⟩)
  else
    let skipped := (items.filter (fun it => !it.prep_ok)).length
    if (items.filter (fun it => it.prep_ok)).isEmpty then
      (items.map (fun it => it.record), ⟨0, 0, skipped⟩)
    else
      match submit with
      | .error _ => (items.map (fun it => it.record), ⟨0, items.length, skipped⟩)
      | .ok _ =>
        if waitOk then
          match retrieve with
          | .error _ => (items.map (fun it => it.record), ⟨0, items.length, skipped⟩)
          | .ok results =>
            let outcomes := items.map
              (fun it => apply_batch_result it.record (lookupResult results it.record.id))
            (outcomes.map (fun o => o.1),
             ⟨(outcomes.filter (fun o => o.2)).length,
              (outcomes.filter (fun o => !o.2)).length, skipped⟩)
        else (items.map (fun it => it.record), ⟨0, items.length, skipped⟩)

/-! ### Claims C5, C6, C7, C8, C10 -/

/-- C5: enrichment atomicity.  In each of the three orchestration
strategies — single-post, the bounded-concurrency per-post worker, and
the Batch-API per-result handler — a failing attempt leaves the post row
exactly as it was (both enrichment fields unchanged, so never only one
of them set); additionally, a batch run whose wait step fails writes no
post at all. -/
theorem C5_atomicity :
    (∀ (dbPost : Option Post) (prep : PrepOutcome) (resp : LLMCallResult),
        (process_single_post dbPost prep resp).success = false →
        (process_single_post dbPost prep resp).record = dbPost) ∧
    (∀ (dbPost : Option Post) (resp : LLMCallResult),
        (process_post_async dbPost resp).success = false →
        (process_post_async dbPost resp).record = dbPost) ∧
    (∀ (post : Post) (res : Option BatchResultRecord),
        (apply_batch_result post res).2 = false →
        (apply_batch_result post res).1 = post) ∧
    (∀ (items : List BatchItem) (submit : Except String String)
        (retrieve : Except String (List BatchResultRecord)),
        (process_post_batch items submit false retrieve).1 =
          items.map (fun it => it.record)) := by
  refine ⟨?_, ?_, ?_, ?_⟩
  · intro dbPost prep resp
    unfold process_single_post
    split
    · intro _; rfl
    · split
      · intro h; simp at h
      · split
        · intro _; rfl
        · split
          · intro _; rfl
          · split
            · intro _; rfl
            · split
              · intro _; rfl
              · intro h; simp at h
  · intro dbPost resp
    unfold process_post_async
    split
    · intro _; rfl
    · split
      · intro h; simp at h
      · split
        · intro _; rfl
        · split
          · intro _; rfl
          · split
            · intro _; rfl
            · intro h; simp at h
  · intro post res
    unfold apply_batch_result
    split
    · intro _; rfl
    · split
      · intro _; rfl
      · split
        · intro _; rfl
        · split
          · intro _; rfl
          · intro h; simp at h
  · intro items submit retrieve
    unfold process_post_batch
    split
    next h => simp [List.isEmpty_iff.1 h]
    next h =>
      split
      · rfl
      · cases submit with
        | error e => rfl
        | ok jobId => rfl

/-- An unenriched post used to witness failure paths. -/
def c5pendingPost : Post := ⟨44, 7, exampleDay, none, none⟩

/-- Witness for C5: a transport failure on an unenriched post leaves the
row unchanged. -/
theorem C5_atomicity_witness :
    (process_single_post (some c5pendingPost) .prepOk (.apiError "connection reset")).record =
      some c5pendingPost :=
  C5_atomicity.1 (some c5pendingPost) .prepOk (.apiError "connection reset") rfl

/-- C6: idempotence of single-post processing.  On an already-enriched
post (both fields set), `process_single_post` makes zero LLM calls,
reports success, and leaves both fields unchanged — so a second call
after a successful enrichment is a no-op. -/
theorem C6_idempotent_skip :
    ∀ (post : Post) (prep : PrepOutcome) (resp : LLMCallResult) (s : String) (q : ℚ),
      post.digest_summary = some s → post.importance_score = some q →
      process_single_post (some post) prep resp = ⟨some post, true, 0⟩ := by
  intro post prep resp s q hs _
  simp [process_single_post, hs]

/-- An already-enriched post. -/
def c6enrichedPost : Post :=
  ⟨42, 7, exampleDay, some "Maria announced a new job.", some 9⟩

/-- Witness for C6: re-processing the enriched post is a successful
no-op with zero LLM calls. -/
theorem C6_idempotent_skip_witness :
    process_single_post (some c6enrichedPost) .prepOk (.apiError "should not be called") =
      ⟨some c6enrichedPost, true, 0⟩ :=
  C6_idempotent_skip c6enrichedPost .prepOk (.apiError "should not be called")
    "Maria announced a new job." 9 rfl rfl

/-- Counterexample for C7 as stated: a response whose envelope and JSON
are well formed but whose `summary` field is the empty string is a
failure case by the claim ("the summary is empty"), yet
`generate_digest_summary` returns the pair `("", 5.0)` instead of
raising; the second conjunct records that this very value is what the
orchestrator's own validation rejects as an empty summary. -/
theorem C7_counterexample_empty_summary :
    generate_digest_summary c7emptySummaryResponse = .ok (.jstr "" none, 5) ∧
    validSummary (.jstr "" none) = none :=
  ⟨rfl, rfl⟩

/-- C7 (amended): `generate_digest_summary` raises on every transport
error, malformed envelope (no choices / no message / no content),
null/non-string/blank envelope content, unparseable JSON with no
extractable embedded object, missing `summary` or `importance` field,
and non-floatable importance; conversely whenever it returns a pair the
response was in none of those classes and the returned importance is the
clamped value in [0, 10].  (A parsed `summary` field that is empty,
null, or not a string is returned as-is; the orchestrator validates
it.) -/
theorem C7_failure_guarantee :
    (∀ r : LLMCallResult, failureResponse r = true →
        ∃ e, generate_digest_summary r = .error e) ∧
    (∀ (r : LLMCallResult) (js : Json) (q : ℚ),
        generate_digest_summary r = .ok (js, q) →
        failureResponse r = false ∧ 0 ≤ q ∧ q ≤ 10) := by
  constructor
  · intro r
    cases r with
    | apiError m => intro _; exact ⟨_, rfl⟩
    | noChoices => intro _; exact ⟨_, rfl⟩
    | noMessage => intro _; exact ⟨_, rfl⟩
    | noContent => intro _; exact ⟨_, rfl⟩
    | response c =>
      cases c with
      | nullContent => intro _; exact ⟨_, rfl⟩
      | nonStringContent => intro _; exact ⟨_, rfl⟩
      | textContent text parse =>
        intro h
        by_cases ht : stripIsEmpty text = true
        · exact ⟨_, by simp [generate_digest_summary, ht]; rfl⟩
        · cases parse with
          | extractFailed => exact ⟨_, by simp [generate_digest_summary, ht]; rfl⟩
          | noJson => exact ⟨_, by simp [generate_digest_summary, ht]; rfl⟩
          | parsed obj =>
            cases h1 : objGet obj "summary" with
            | none => exact ⟨_, by simp [generate_digest_summary, ht, h1]; rfl⟩
            | some sj =>
              cases h2 : objGet obj "importance" with
              | none => exact ⟨_, by simp [generate_digest_summary, ht, h1, h2]; rfl⟩
              | some ij =>
                cases h3 : pyFloat ij with
                | none => exact ⟨_, by simp [generate_digest_summary, ht, h1, h2, h3]; rfl⟩
                | some qq => simp [failureResponse, ht, h1, h2, h3] at h
          | extracted obj =>
            cases h1 : objGet obj "summary" with
            | none => exact ⟨_, by simp [generate_digest_summary, ht, h1]; rfl⟩
            | some sj =>
              cases h2 : objGet obj "importance" with
              | none => exact ⟨_, by simp [generate_digest_summary, ht, h1, h2]; rfl⟩
              | some ij =>
                cases h3 : pyFloat ij with
                | none => exact ⟨_, by simp [generate_digest_summary, ht, h1, h2, h3]; rfl⟩
                | some qq => simp [failureResponse, ht, h1, h2, h3] at h
  · intro r js q h
    cases r with
    | apiError m => simp [generate_digest_summary] at h
    | noChoices => simp [generate_digest_summary] at h
    | noMessage => simp [generate_digest_summary] at h
    | noContent => simp [generate_digest_summary] at h
    | response c =>
      cases c with
      | nullContent => simp [generate_digest_summary] at h
      | nonStringContent => simp [generate_digest_summary] at h
      | textContent text parse =>
        by_cases ht : stripIsEmpty text = true
        · simp [generate_digest_summary, ht] at h
        · cases parse with
          | extractFailed => simp [generate_digest_summary, ht] at h
          | noJson => simp [generate_digest_summary, ht] at h
          | parsed obj =>
            cases h1 : objGet obj "summary" with
            | none => simp [generate_digest_summary, ht, h1] at h
            | some sj =>
              cases h2 : objGet obj "importance" with
              | none => simp [generate_digest_summary, ht, h1, h2] at h
              | some ij =>
                cases h3 : pyFloat ij with
                | none => simp [generate_digest_summary, ht, h1, h2, h3] at h
                | some qq =>
                  simp [generate_digest_summary, ht, h1, h2, h3] at h
                  obtain ⟨hjs, hq⟩ := h
                  subst hq
                  exact ⟨by simp [failureResponse, ht, h1, h2, h3], clampImportance_bounds qq⟩
          | extracted obj =>
            cases h1 : objGet obj "summary" with
            | none => simp [generate_digest_summary, ht, h1] at h
            | some sj =>
              cases h2 : objGet obj "importance" with
              | none => simp [generate_digest_summary, ht, h1, h2] at h
              | some ij =>
                cases h3 : pyFloat ij with
                | none => simp [generate_digest_summary, ht, h1, h2, h3] at h
                | some qq =>
                  simp [generate_digest_summary, ht, h1, h2, h3] at h
                  obtain ⟨hjs, hq⟩ := h
                  subst hq
                  exact ⟨by simp [failureResponse, ht, h1, h2, h3], clampImportance_bounds qq⟩

/-- Witness for C7: the guarantee applied to a malformed envelope (no
choices) and, for the converse direction, to a fully valid response. -/
theorem C7_failure_guarantee_witness :
    (∃ e, generate_digest_summary .noChoices = .error e) ∧
    (failureResponse c7emptySummaryResponse = false ∧ (0 : ℚ) ≤ 5 ∧ (5 : ℚ) ≤ 10) :=
  ⟨C7_failure_guarantee.1 .noChoices rfl,
    C7_failure_guarantee.2 c7emptySummaryResponse (.jstr "" none) 5 rfl⟩

/-- C8: Batch-API failure accounting.  (1) On the happy path (job
submitted, wait succeeded, results fetched), a prepared post with no
result matching its tracking id is left unwritten and counted failed;
(2) when the wait step reports failure — as it does (3) when the time
budget is exhausted and (4) when a poll observes a terminal failure
status (`failed`, `expired` or `cancelled`) — the whole run counts every
post failed and writes none of them. -/
theorem C8_batch_failure_accounting :
    (∀ (items : List BatchItem) (results : List BatchResultRecord) (jobId : String)
        (i : Nat) (hi : i < items.length),
        items ≠ [] → items.filter (fun it => it.prep_ok) ≠ [] →
        lookupResult results (items.get ⟨i, hi⟩).record.id = none →
        (process_post_batch items (.ok jobId) true (.ok results)).1[i]? =
            some (items.get ⟨i, hi⟩).record ∧
          1 ≤ (process_post_batch items (.ok jobId) true (.ok results)).2.failed) ∧
    (∀ (items : List BatchItem) (jobId : String)
        (retrieve : Except String (List BatchResultRecord)) (fuel : Nat)
        (statuses : List (Option BatchStatus)),
        items ≠ [] → items.filter (fun it => it.prep_ok) ≠ [] →
        wait_for_batch_completion fuel statuses = false →
        process_post_batch items (.ok jobId) (wait_for_batch_completion fuel statuses)
            retrieve =
          (items.map (fun it => it.record),
            ⟨0, items.length, (items.filter (fun it => !it.prep_ok)).length⟩)) ∧
    (∀ statuses, wait_for_batch_completion 0 statuses = false) ∧
    (∀ (fuel : Nat) (rest : List (Option BatchStatus)) (s : BatchStatus),
        s = .failed ∨ s = .expired ∨ s = .cancelled →
        wait_for_batch_completion (fuel + 1) (some s :: rest) = false) := by
  refine ⟨?_, ?_, ?_, ?_⟩
  · intro items results jobId i hi hne hprep hlook
    have hie : ¬ (items.isEmpty = true) := by simpa [List.isEmpty_iff] using hne
    have hpe : ¬ ((items.filter (fun it => it.prep_ok)).isEmpty = true) := by
      simpa [List.isEmpty_iff] using hprep
    have hrec : (process_post_batch items (.ok jobId) true (.ok results)).1 =
        items.map (fun it => (apply_batch_result it.record
          (lookupResult results it.record.id)).1) := by
      simp [process_post_batch, hie, hpe, List.map_map, Function.comp]
    have hfail : (process_post_batch items (.ok jobId) true (.ok results)).2.failed =
        ((items.map (fun it => apply_batch_result it.record
          (lookupResult results it.record.id))).filter (fun o => !o.2)).length := by
      simp [process_post_batch, hie, hpe]
    constructor
    · rw [hrec]
      simp only [List.getElem?_map, List.getElem?_eq_getElem hi]
      have hlook2 : lookupResult results items[i].record.id = none := hlook
      simp [hlook2, apply_batch_result]
    · rw [hfail]
      have hmem : items.get ⟨i, hi⟩ ∈ items := List.getElem_mem hi
      have hout : ((items.get ⟨i, hi⟩).record, false) ∈ items.map
          (fun it => apply_batch_result it.record (lookupResult results it.record.id)) := by
        refine List.mem_map.2 ⟨items.get ⟨i, hi⟩, hmem, ?_⟩
        rw [hlook]
        rfl
      have hfil : ((items.get ⟨i, hi⟩).record, false) ∈ (items.map
          (fun it => apply_batch_result it.record (lookupResult results it.record.id))).filter
          (fun o => !o.2) := by
        rw [List.mem_filter]
        exact ⟨hout, rfl⟩
      exact List.length_pos.2 (List.ne_nil_of_mem hfil)
  · intro items jobId retrieve fuel statuses hne hprep hwait
    rw [hwait]
    have hie : ¬ (items.isEmpty = true) := by simpa [List.isEmpty_iff] using hne
    have hpe : ¬ ((items.filter (fun it => it.prep_ok)).isEmpty = true) := by
      simpa [List.isEmpty_iff] using hprep
    simp only [process_post_batch, if_neg hie, if_neg hpe]
    rfl
  · intro statuses
    cases statuses <;> rfl
  · intro fuel rest s hs
    rcases hs with rfl | rfl | rfl <;> rfl

/-- The prepared post of the batch witness run. -/
def c8post : Post := ⟨55, 9, exampleDay, none, none⟩

/-- Witness for C8: one prepared post, empty result set — the post is
unwritten and the run counts one failure. -/
theorem C8_batch_failure_accounting_witness :
    (process_post_batch [⟨c8post, true⟩] (.ok "batch_1") true (.ok [])).1[0]? =
        some c8post ∧
      1 ≤ (process_post_batch [⟨c8post, true⟩] (.ok "batch_1") true (.ok [])).2.failed :=
  C8_batch_failure_accounting.1 [⟨c8post, true⟩] [] "batch_1" 0 (by decide)
    (by simp) (by simp) rfl

/-- C10 (implicit): a post counts as already enriched solely on
`digest_summary` being non-null.  With a non-null summary — even when
`importance_score` is null — both `process_single_post` and the per-post
worker `process_post_async` succeed without an LLM call and leave the
row unchanged; and the weekly orchestration's pending-post condition is
insensitive to `importance_score`. -/
theorem C10_enriched_check_is_summary_only :
    (∀ (post : Post) (prep : PrepOutcome) (resp : LLMCallResult) (s : String),
        post.digest_summary = some s →
        process_single_post (some post) prep resp = ⟨some post, true, 0⟩) ∧
    (∀ (post : Post) (resp : LLMCallResult) (s : String),
        post.digest_summary = some s →
        process_post_async (some post) resp = ⟨some post, true, 0⟩) ∧
    (∀ (week_start week_end : Nat) (p : Post) (q : Option ℚ),
        pendingFilter week_start week_end
            ⟨p.id, p.author_id, p.created_at, p.digest_summary, q⟩ =
          pendingFilter week_start week_end p) := by
  refine ⟨?_, ?_, ?_⟩
  · intro post prep resp s hs
    simp [process_single_post, hs]
  · intro post resp s hs
    simp [process_post_async, hs]
  · intro week_start week_end p q
    rfl

/-- A post with a summary but a null importance score. -/
def c10halfPost : Post := ⟨43, 7, exampleDay, some "only the summary is set", none⟩

/-- Witness for C10: the half-enriched post is skipped as success with
zero LLM calls by both workers. -/
theorem C10_enriched_check_is_summary_only_witness :
    process_single_post (some c10halfPost) .prepOk (.apiError "e") =
        ⟨some c10halfPost, true, 0⟩ ∧
      process_post_async (some c10halfPost) (.apiError "e") =
        ⟨some c10halfPost, true, 0⟩ :=
  ⟨C10_enriched_check_is_summary_only.1 c10halfPost .prepOk (.apiError "e")
      "only the summary is set" rfl,
    C10_enriched_check_is_summary_only.2.1 c10halfPost (.apiError "e")
      "only the summary is set" rfl⟩

end DigestSpec
